import Mathlib

/-! Shallow embedding of the ConnectCore BLE secure-session layer
(`BLE_security_manager.py`, `BLEService.py`, `srp_phase.py`, `exception.py`).

Bytes are modelled as `List Nat` (each entry a byte value).  Python
exceptions are modelled with `Except` and an explicit error type; the
mutable class-level state of `BLESecurityManager` is threaded explicitly
as a `SecState` value.  External libraries (the `srp` PAKE library, the
`Crypto` AES primitive and the `digi.xbee` frame codec) are not part of
`src/`; their behaviour is either parameterised (the AES block function,
the SRP verifier factory, the salted-verification-key KDF) or modelled
from the spec (the XBee API frame format), as marked on each definition.
-/

namespace CCBLE

/-- Byte strings: lists of byte values. -/
abbrev ByteL := List Nat

/-- Python exceptions that the embedded code can raise. -/
inductive PErr where
  | notAuthenticated   -- exception.NotAuthenticatedException
  | attributeError     -- Python AttributeError (missing attribute, e.g. cls.verifier)
  | typeError          -- Python TypeError (e.g. len(None), bytes + None)
  | indexError         -- Python IndexError (frame_data[4] on a short frame)
  | invalidPacket      -- digi.xbee InvalidPacketException
deriving DecidableEq, Repr

/-- Big-endian 4-byte encoding of a counter value, reduced mod 2^32
(`Counter.new(nbits=32, ...)` wraps the 32-bit counter field). -/
def be32 (n : Nat) : ByteL :=
  [n / 2 ^ 24 % 256, n / 2 ^ 16 % 256, n / 2 ^ 8 % 256, n % 256]

/-- State of one AES-CTR cipher object as built by
`BLESecurityManager.new_cipher`: the key, the 12-byte nonce used as the
fixed counter-block prefix, and the 32-bit counter field (initial value 1). -/
structure Cipher where
  key : ByteL
  nonce : ByteL
  ctr : Nat
deriving DecidableEq, Repr

/-- `BLESecurityManager.new_cipher(session_key, nonce)`:
`Counter.new(nbits=32, prefix=nonce, initial_value=1)` then
`AES.new(key=session_key, mode=AES.MODE_CTR, counter=counter)`. -/
def new_cipher (session_key : ByteL) (nonce : ByteL) : Cipher :=
  { key := session_key, nonce := nonce, ctr := 1 }

/-- CTR keystream: `blocks` consecutive counter blocks (`nonce ++ be32 ctr`)
run through the AES block function `aes : key → counter-block → keystream
block`.  The AES primitive itself is the external `Crypto.Cipher.AES`
library and is taken as a parameter. -/
def ctr_blocks (aes : ByteL → ByteL → ByteL) (key nonce : ByteL) :
    Nat → Nat → ByteL
  | _, 0 => []
  | c, n + 1 => aes key (nonce ++ be32 c) ++ ctr_blocks aes key nonce (c + 1) n

/-- One `cipher.encrypt(data)` (or `cipher.decrypt`, identical in CTR mode)
call on a stateful cipher object: XOR with the keystream and advance the
counter by the number of consumed blocks. -/
def cipher_encrypt (aes : ByteL → ByteL → ByteL) (c : Cipher) (data : ByteL) :
    ByteL × Cipher :=
  let nb := (data.length + 15) / 16
  (List.zipWith Nat.xor data (ctr_blocks aes c.key c.nonce c.ctr nb),
   { c with ctr := c.ctr + nb })

/-- Behaviour of one `srp.Verifier` object (the `srp` library is external):
`B` is the server public value returned by `get_challenge()` (`none` for a
degenerate client value `A`, e.g. `A mod N == 0`); `verifyM2 M1` is the
value returned by `verify_session(M1)` (`none` on a bad proof);
`authAfter M1` is what `authenticated()` returns after `verify_session(M1)`;
`K` is `get_session_key()`. -/
structure Verifier where
  B : Option ByteL
  verifyM2 : ByteL → Option ByteL
  authAfter : ByteL → Bool
  K : ByteL

/-- The class-level mutable state of `BLESecurityManager`
(`salt`, `verification_key`, `encryptor`, `decryptor`, `encrypt`, plus the
`verifier` attribute that is only ever created by a phase-1 request). -/
structure SecState where
  salt : Option ByteL
  verification_key : Option ByteL
  verifier : Option Verifier
  encryptor : Option Cipher
  decryptor : Option Cipher
  encrypt : Bool

/-- `BLESecurityManager.encrypt_data(data)`: encrypt with the stored
encryptor when the `encrypt` flag is set, otherwise raise
`NotAuthenticatedException`.  Returns the result (or error) and the
post-call state. -/
def encrypt_data (aes : ByteL → ByteL → ByteL) (s : SecState) (data : ByteL) :
    Except PErr ByteL × SecState :=
  if s.encrypt then
    match s.encryptor with
    | some c =>
      let r := cipher_encrypt aes c data
      (.ok r.1, { s with encryptor := some r.2 })
    | none => (.error .attributeError, s)
  else (.error .notAuthenticated, s)

/-- `BLESecurityManager.decrypt_data(data)`: decrypt with the stored
decryptor when the `encrypt` flag is set, otherwise raise
`NotAuthenticatedException`. -/
def decrypt_data (aes : ByteL → ByteL → ByteL) (s : SecState) (data : ByteL) :
    Except PErr ByteL × SecState :=
  if s.encrypt then
    match s.decryptor with
    | some c =>
      let r := cipher_encrypt aes c data
      (.ok r.1, { s with decryptor := some r.2 })
    | none => (.error .attributeError, s)
  else (.error .notAuthenticated, s)

/-- `API_USERNAME = 'apiservice'` (BLE_security_manager.py). -/
def API_USERNAME : String := "apiservice"

/-- `BLESecurityManager.generate_salted_verification_key(api_password)`:
`srp.create_salted_verification_key` (external library, taken as the
parameter `kdf : username → password → salt × verification_key`) is called
with `API_USERNAME` and the password, and only the `salt` and
`verification_key` fields are overwritten. -/
def generate_salted_verification_key (kdf : String → String → ByteL × ByteL)
    (s : SecState) (api_password : String) : SecState :=
  { s with salt := some (kdf API_USERNAME api_password).1,
           verification_key := some (kdf API_USERNAME api_password).2 }

/-- Modelled from the spec: the XBee API frame checksum of the
`digi.xbee` packet codec (library not in `src/`): `0xFF` minus the
low byte of the sum of the frame-data bytes. -/
def xbee_checksum (fd : ByteL) : Nat := 0xFF - fd.sum % 256

/-- Modelled from the spec: serialisation of an XBee API packet
(`packet.output()` of the `digi.xbee` library, not in `src/`): start
delimiter `0x7E`, 16-bit big-endian length of the frame data, the frame
data, the checksum. -/
def xbee_output_fd (fd : ByteL) : ByteL :=
  0x7E :: fd.length / 256 :: fd.length % 256 :: fd ++ [xbee_checksum fd]

/-- `UnknownXBeePacket(api_id, payload).output()`: the frame data is the
API id byte followed by the payload. -/
def xbee_output (apiId : Nat) (payload : ByteL) : ByteL :=
  xbee_output_fd (apiId :: payload)

/-- `bytearray(x)` where `x` may be either a bytes value or (by mistake)
a plain `int`: `bytearray(bytes)` copies the bytes, while `bytearray(n)`
builds `n` zero bytes.  Used to embed the phase-1 error branch of
`process_srp_request`, where `payload` is left as the integer
`SrpError.B_OFFERING_ERROR.code`. -/
inductive PyBytesOrInt where
  | bytes (b : ByteL)
  | int (n : Nat)

/-- Python `bytearray(...)` on a bytes-or-int value. -/
def pyBytearray : PyBytesOrInt → ByteL
  | .bytes b => b
  | .int n => List.replicate n 0

/-- `BLESecurityManager.process_srp_request(frame_data)`.

Parameters standing in for external effects: `mkV` is the `srp.Verifier`
constructor (external `srp` library) applied to the stored salt,
verification key and the client value `A` taken from the frame; `tx` and
`rx` are the two `os.urandom(12)` results, in the order the code draws
them.

Returns the value returned (`some reply` from a phase-1/phase-3 frame,
`none` — Python `None` — for any other phase code) or the raised
exception, paired with the post-call class state. -/
def process_srp_request (mkV : Option ByteL → Option ByteL → ByteL → Verifier)
    (tx rx : ByteL) (s : SecState) (frame : ByteL) :
    Except PErr (Option ByteL) × SecState :=
  -- frame_data[4] raises IndexError on a frame shorter than 5 bytes
  if frame.length < 5 then (.error .indexError, s)
  else if frame.getD 4 0 = 0x01 then
    -- payload = PHASE_2 code byte; A = frame_data[5:133] (the hex
    -- round-trip hex_to_string / bytes.fromhex is the identity on bytes)
    let A := (frame.drop 5).take 128
    -- cls.verifier = srp.Verifier(API_USERNAME, cls.salt, cls.verification_key, A, ...)
    let v := mkV s.salt s.verification_key A
    let s1 := { s with verifier := some v }
    match v.B with
    | none =>
      -- payload = SrpError.B_OFFERING_ERROR.code : the plain int 0x80;
      -- bytearray(0x80) is 128 zero bytes
      (.ok (some (xbee_output 0xAC (pyBytearray (.int 0x80)))), s1)
    | some B =>
      match s.salt with
      | none => (.error .typeError, s1)   -- payload += None
      | some salt =>
        (.ok (some (xbee_output 0xAC (pyBytearray (.bytes ([0x02] ++ salt ++ B))))), s1)
  else if frame.getD 4 0 = 0x03 then
    -- cls.verifier was only ever assigned by a phase-1 request;
    -- before that the attribute does not exist and Python raises
    match s.verifier with
    | none => (.error .attributeError, s)
    | some v =>
      -- M1 = frame_data[5:37]
      let M1 := (frame.drop 5).take 32
      match v.verifyM2 M1 with
      | none =>
        -- payload = SrpError.BAD_PROOF_OF_KEY.code.to_bytes(1, 'big')
        (.ok (some (xbee_output 0xAC [0x82])), s)
      | some M2 =>
        if v.authAfter M1 then
          let payload := [0x04] ++ M2 ++ tx ++ rx
          let s2 := { s with encryptor := some (new_cipher v.K rx),
                             decryptor := some (new_cipher v.K tx),
                             encrypt := true }
          (.ok (some (xbee_output 0xAC payload)), s2)
        else
          (.ok (some (xbee_output 0xAC [0x82])), s)
  else (.ok none, s)

/-- Modelled from the spec: `UnknownXBeePacket.create_packet(raw)` followed
by `.output()` (`digi.xbee` library, not in `src/`): validate the start
delimiter, the length field and the checksum, then re-serialise
`UnknownXBeePacket(raw[3], raw[4:-1])` — which reproduces the frame. -/
def unknown_create_output (raw : ByteL) : Except PErr ByteL :=
  if raw.length < 5 then .error .invalidPacket
  else if raw.getD 0 0 ≠ 0x7E then .error .invalidPacket
  else if raw.getD 1 0 * 256 + raw.getD 2 0 ≠ raw.length - 4 then .error .invalidPacket
  else if (raw.drop 3).sum % 256 ≠ 0xFF then .error .invalidPacket
  else .ok (xbee_output_fd ((raw.drop 3).dropLast))

/-- Modelled from the spec: `UserDataRelayPacket.create_packet(raw, API_MODE)`
(`digi.xbee` library, not in `src/`): an XBee frame with frame type `0x2D`,
a frame id and a local-interface byte; `packet.data` is the remaining
frame data.  Validation failure raises `InvalidPacketException`. -/
def relay_create (raw : ByteL) : Except PErr ByteL :=
  if raw.length < 7 then .error .invalidPacket
  else if raw.getD 0 0 ≠ 0x7E then .error .invalidPacket
  else if raw.getD 1 0 * 256 + raw.getD 2 0 ≠ raw.length - 4 then .error .invalidPacket
  else if (raw.drop 3).sum % 256 ≠ 0xFF then .error .invalidPacket
  else if raw.getD 3 0 ≠ 0x2D then .error .invalidPacket
  else .ok ((raw.drop 6).dropLast)

/-- Modelled from the spec: `UserDataRelayOutputPacket(BLUETOOTH, data).output()`
(`digi.xbee` library, not in `src/`): frame type `0xAD` followed by the
local-interface code (`XBeeLocalInterface.BLUETOOTH = 1`) and the data. -/
def relay_output_packet (data : ByteL) : ByteL :=
  xbee_output_fd ([0xAD, 1] ++ data)

/-- `BLEServiceNative.send_data(data)`: a Bluetooth Unlock API frame
(`len(data) > 3 and data[3] == 0xAC`) is re-serialised by
`UnknownXBeePacket.create_packet` and sent in the clear; anything else is
wrapped in a `UserDataRelayOutputPacket` and encrypted by
`BLESecurityManager.encrypt_data` before being handed to
`GATT_server.send_rx_data`.  Returns the bytes passed to the GATT server
(or the raised exception) and the post-call security state. -/
def send_data (aes : ByteL → ByteL → ByteL) (s : SecState) (data : ByteL) :
    Except PErr ByteL × SecState :=
  if 3 < data.length ∧ data.getD 3 0 = 0xAC then
    match unknown_create_output data with
    | .ok out => (.ok out, s)
    | .error e => (.error e, s)
  else
    let wrapped := relay_output_packet data
    match encrypt_data aes s wrapped with
    | (.ok ct, s1) => (.ok ct, s1)
    | (.error e, s1) => (.error e, s1)

/-- `BLEServiceNative._execute_user_data_received_callbacks(data)`.

The registered data-received callbacks are modelled by the list `cbs` of
their registration indices (`add_data_received_callback` appends).  The
result is the list of frames handed to `GATT_server.send_rx_data` together
with the list of `(callback, payload)` invocations, in invocation order,
or the raised exception; paired with the post-call security state. -/
def exec_data_received (aes : ByteL → ByteL → ByteL)
    (mkV : Option ByteL → Option ByteL → ByteL → Verifier) (tx rx : ByteL)
    (cbs : List Nat) (s : SecState) (data : ByteL) :
    Except PErr (List ByteL × List (Nat × ByteL)) × SecState :=
  if 3 < data.length ∧ data.getD 3 0 = 0x2C then
    -- Bluetooth Unlock API frame: process the SRP request, send the reply
    match process_srp_request mkV tx rx s data with
    | (.error e, s1) => (.error e, s1)
    | (.ok none, s1) => (.error .typeError, s1)   -- send_data(None): len(None)
    | (.ok (some resp), s1) =>
      match send_data aes s1 resp with
      | (.ok out, s2) => (.ok ([out], []), s2)
      | (.error e, s2) => (.error e, s2)
  else
    match decrypt_data aes s data with
    | (.error e, s1) => (.error e, s1)
    | (.ok dec, s1) =>
      if 3 < dec.length ∧ dec.getD 3 0 = 0x08 then
        -- AT Command frame: ignore
        (.ok ([], []), s1)
      else
        match relay_create dec with
        | .error e => (.error e, s1)
        | .ok payload => (.ok ([], cbs.map fun i => (i, payload)), s1)

/-- `BLEServiceNative.set_password(new_password)`: delegates to
`BLESecurityManager.generate_salted_verification_key`. -/
def set_password (kdf : String → String → ByteL × ByteL) (s : SecState)
    (new_password : String) : SecState :=
  generate_salted_verification_key kdf s new_password

/-- Effect of `BLEServiceNative.__init__` on the security state:
`BLESecurityManager.generate_salted_verification_key('1234')`. -/
def native_init (kdf : String → String → ByteL × ByteL) (s : SecState) : SecState :=
  generate_salted_verification_key kdf s "1234"

/-! Concrete fixtures used to instantiate the theorems. -/

/-- A concrete stand-in for the AES block function. -/
def aes0 : ByteL → ByteL → ByteL := fun _ _ => List.replicate 16 0

/-- A concrete stand-in for `srp.create_salted_verification_key`. -/
def kdf0 : String → String → ByteL × ByteL := fun _ _ => ([9, 9, 9, 9], [7, 7])

/-- The pristine class state of `BLESecurityManager` (all attributes at
their class-level defaults, `verifier` not yet created). -/
def s0 : SecState :=
  { salt := none, verification_key := none, verifier := none,
    encryptor := none, decryptor := none, encrypt := false }

/-- A verifier whose `get_challenge()` offers no `B` (degenerate client
value, `A mod N == 0`). -/
def vDegenerate : Verifier :=
  { B := none, verifyM2 := fun _ => none, authAfter := fun _ => false, K := [] }

/-- A verifier factory producing only degenerate-`A` verifiers. -/
def mkVDeg : Option ByteL → Option ByteL → ByteL → Verifier := fun _ _ _ => vDegenerate

/-- A verifier that accepts the client proof (`verify_session` returns
`M2 = [0xAA, 0xBB]`, `authenticated()` turns true, session key `[1, 2]`). -/
def vGood : Verifier :=
  { B := some [0x10, 0x11], verifyM2 := fun _ => some [0xAA, 0xBB],
    authAfter := fun _ => true, K := [1, 2] }

/-- A verifier factory producing `vGood`. -/
def mkVGood : Option ByteL → Option ByteL → ByteL → Verifier := fun _ _ _ => vGood

/-- A verifier that rejects the client proof (`verify_session` returns
`None`, as for a wrong password). -/
def vBad : Verifier :=
  { B := some [0x10, 0x11], verifyM2 := fun _ => none,
    authAfter := fun _ => false, K := [3, 4] }

/-- A phase-1 handshake frame whose client value `A` is 128 zero bytes
(`A = 0`, so `A mod N = 0`): marker `0x2C` at offset 3, phase code `0x01`
at offset 4. -/
def frame1Deg : ByteL := [0x7E, 0x00, 0x85, 0x2C, 0x01] ++ List.replicate 128 0

/-- A phase-3 handshake frame: marker `0x2C` at offset 3, phase code
`0x03` at offset 4, followed by a 32-byte client proof `M1`. -/
def frame3 : ByteL := [0x7E, 0x00, 0x25, 0x2C, 0x03] ++ List.replicate 32 0x55

/-- A concrete cipher object for the authenticated fixture state. -/
def cAuth : Cipher := new_cipher [1, 2] [0xD1]

/-- A concrete authenticated state: both ciphers installed, `encrypt`
flag set. -/
def sAuth : SecState :=
  { salt := some [9, 9, 9, 9], verification_key := some [7, 7],
    verifier := some vGood, encryptor := some cAuth,
    decryptor := some (new_cipher [1, 2] [0xD0]), encrypt := true }

/-- `sAuth` after one decryption call consumed one CTR block. -/
def sAuth1 : SecState :=
  { sAuth with decryptor := some { key := [1, 2], nonce := [0xD0], ctr := 2 } }

/-- A frame that decrypts (under `aes0`, whose keystream is all zeros) to
an AT Command frame: byte 3 is `0x08`. -/
def atFrame : ByteL := [0x7E, 0x00, 0x00, 0x08, 0x00]

/-- A frame that decrypts (under `aes0`) to a well-formed User Data Relay
frame with frame id 1, local interface 1 and payload `[0x42, 0x43]`. -/
def relayFrame : ByteL := [0x7E, 0x00, 0x05, 0x2D, 0x01, 0x01, 0x42, 0x43, 0x4B]

/-! Claims. -/

/-- Claim C2: For every input, calling `encrypt_data` or `decrypt_data`
while the session is not authenticated (`encrypt` flag false) raises
`NotAuthenticatedException` and returns no data: the call errors out and
the whole stored state — in particular both cipher objects — is exactly
the state before the call. -/
theorem unauthenticated_crypto_rejected (aes : ByteL → ByteL → ByteL)
    (s : SecState) (data : ByteL) (h : s.encrypt = false) :
    encrypt_data aes s data = (.error .notAuthenticated, s) ∧
    decrypt_data aes s data = (.error .notAuthenticated, s) := by
  constructor <;> simp [encrypt_data, decrypt_data, h]

/-- Witness for C2 at the pristine state and a concrete payload. -/
theorem unauthenticated_crypto_rejected_witness :
    encrypt_data aes0 s0 [1, 2, 3] = (.error .notAuthenticated, s0) ∧
    decrypt_data aes0 s0 [1, 2, 3] = (.error .notAuthenticated, s0) :=
  unauthenticated_crypto_rejected aes0 s0 [1, 2, 3] rfl

/-- Claim C1: Behaviour of `process_srp_request` on a phase-1 frame whose
client value `A` is degenerate (`A = 0`, so `get_challenge()` offers no
`B`), evaluated at the failing input: the reply is an `0xAC` frame whose
payload is 128 zero bytes — `payload = SrpError.B_OFFERING_ERROR.code`
leaves `payload` the plain integer `0x80`, and `bytearray(0x80)` builds
128 zero bytes, so the advertised error code `0x80` is never sent — and
the verifier object IS persisted on the class
(`cls.verifier = srp.Verifier(...)` runs before the degenerate check),
while the session does remain unauthenticated. -/
theorem degenerate_A_reply_is_128_zero_bytes :
    (process_srp_request mkVDeg [] [] (native_init kdf0 s0) frame1Deg).1 =
      .ok (some (xbee_output 0xAC (List.replicate 128 0))) ∧
    (process_srp_request mkVDeg [] [] (native_init kdf0 s0) frame1Deg).2 =
      { native_init kdf0 s0 with verifier := some vDegenerate } ∧
    (xbee_output 0xAC (List.replicate 128 0)).getD 4 0 = 0 ∧
    (process_srp_request mkVDeg [] [] (native_init kdf0 s0) frame1Deg).2.encrypt = false := by
  set_option maxRecDepth 20000 in refine ⟨rfl, rfl, rfl, rfl⟩

/-- Claim C3: On a phase-3 frame: when the proof verifies, the final state
holds an encryptor built from the session key and `rx_nonce`, a decryptor
built from the session key and `tx_nonce` (both with the CTR counter at
its initial value 1), and the `encrypt` flag true — the flag is set only
in the same success path that installs both ciphers; on the failure
branch the state is exactly the pre-call state, so neither cipher is
created and the flag stays false. -/
theorem phase3_cipher_initialization
    (mkV : Option ByteL → Option ByteL → ByteL → Verifier)
    (tx rx : ByteL) (s : SecState) (frame : ByteL) (v : Verifier)
    (hlen : 5 ≤ frame.length) (hphase : frame.getD 4 0 = 0x03)
    (hv : s.verifier = some v) :
    (∀ M2, v.verifyM2 ((frame.drop 5).take 32) = some M2 →
      v.authAfter ((frame.drop 5).take 32) = true →
      (process_srp_request mkV tx rx s frame).2 =
        { s with encryptor := some (new_cipher v.K rx),
                 decryptor := some (new_cipher v.K tx),
                 encrypt := true }) ∧
    ((v.verifyM2 ((frame.drop 5).take 32) = none ∨
      v.authAfter ((frame.drop 5).take 32) = false) →
      (process_srp_request mkV tx rx s frame).2 = s) := by
  have hlt : ¬ frame.length < 5 := by omega
  constructor
  · intro M2 hM2 hauth
    unfold process_srp_request
    rw [hphase, hv]
    simp [hlt, hM2, hauth]
  · rintro (hM2 | hauth)
    · unfold process_srp_request
      rw [hphase, hv]
      simp [hlt, hM2]
    · rcases h2 : v.verifyM2 ((frame.drop 5).take 32) with _ | M2 <;>
        · unfold process_srp_request
          rw [hphase, hv]
          simp [hlt, h2, hauth]

/-- Witness for C3: both branches at concrete inputs. -/
theorem phase3_cipher_initialization_witness :
    (process_srp_request mkVGood [0xD0] [0xD1]
        { s0 with verifier := some vGood } frame3).2 =
      { s0 with verifier := some vGood,
                encryptor := some (new_cipher [1, 2] [0xD1]),
                decryptor := some (new_cipher [1, 2] [0xD0]),
                encrypt := true } ∧
    (process_srp_request mkVGood [0xD0] [0xD1]
        { s0 with verifier := some vBad } frame3).2 =
      { s0 with verifier := some vBad } :=
  ⟨(phase3_cipher_initialization mkVGood [0xD0] [0xD1]
      { s0 with verifier := some vGood } frame3 vGood (by decide) (by decide)
      rfl).1 [0xAA, 0xBB] rfl rfl,
   (phase3_cipher_initialization mkVGood [0xD0] [0xD1]
      { s0 with verifier := some vBad } frame3 vBad (by decide) (by decide)
      rfl).2 (Or.inl rfl)⟩

/-- Claim C4: On a phase-3 frame whose proof `M1` verifies, the reply is an
`0xAC` frame whose payload is exactly the phase-4 code byte `0x04`, then
the server proof `M2`, then `tx_nonce`, then `rx_nonce`, where the two
nonces are the two independently drawn `os.urandom(12)` outputs (12 bytes
each) for this session. -/
theorem phase4_reply_payload
    (mkV : Option ByteL → Option ByteL → ByteL → Verifier)
    (tx rx : ByteL) (s : SecState) (frame : ByteL) (v : Verifier) (M2 : ByteL)
    (hlen : 5 ≤ frame.length) (hphase : frame.getD 4 0 = 0x03)
    (hv : s.verifier = some v)
    (hM2 : v.verifyM2 ((frame.drop 5).take 32) = some M2)
    (hauth : v.authAfter ((frame.drop 5).take 32) = true)
    (htx : tx.length = 12) (hrx : rx.length = 12) :
    (process_srp_request mkV tx rx s frame).1 =
      .ok (some (xbee_output 0xAC ([0x04] ++ M2 ++ tx ++ rx))) ∧
    tx.length = 12 ∧ rx.length = 12 := by
  refine ⟨?_, htx, hrx⟩
  have hlt : ¬ frame.length < 5 := by omega
  unfold process_srp_request
  rw [hphase, hv]
  simp [hlt, hM2, hauth, xbee_output]

/-- Witness for C4 with two concrete 12-byte nonces. -/
theorem phase4_reply_payload_witness :
    (process_srp_request mkVGood (List.replicate 12 0xD0) (List.replicate 12 0xD1)
        { s0 with verifier := some vGood } frame3).1 =
      .ok (some (xbee_output 0xAC ([0x04] ++ [0xAA, 0xBB] ++
        List.replicate 12 0xD0 ++ List.replicate 12 0xD1))) ∧
    (List.replicate 12 0xD0 : ByteL).length = 12 ∧
    (List.replicate 12 0xD1 : ByteL).length = 12 :=
  phase4_reply_payload mkVGood (List.replicate 12 0xD0) (List.replicate 12 0xD1)
    { s0 with verifier := some vGood } frame3 vGood [0xAA, 0xBB]
    (by decide) (by decide) rfl rfl rfl (by decide) (by decide)

/-- Claim C5: On a phase-3 frame whose proof fails verification (as for a
wrong password: `verify_session` returns `None`, or `authenticated()`
stays false), the reply is an `0xAC` frame whose payload is the single
bad-proof error byte `0x82`, and the state is exactly the pre-call state:
the `encrypt` flag is never set, no session key is consumed and no cipher
is installed. -/
theorem phase3_bad_proof_reply
    (mkV : Option ByteL → Option ByteL → ByteL → Verifier)
    (tx rx : ByteL) (s : SecState) (frame : ByteL) (v : Verifier)
    (hlen : 5 ≤ frame.length) (hphase : frame.getD 4 0 = 0x03)
    (hv : s.verifier = some v)
    (hfail : v.verifyM2 ((frame.drop 5).take 32) = none ∨
             v.authAfter ((frame.drop 5).take 32) = false) :
    (process_srp_request mkV tx rx s frame).1 =
      .ok (some (xbee_output 0xAC [0x82])) ∧
    (process_srp_request mkV tx rx s frame).2 = s := by
  have hlt : ¬ frame.length < 5 := by omega
  rcases hfail with hM2 | hauth
  · constructor <;>
      · unfold process_srp_request
        rw [hphase, hv]
        simp [hlt, hM2]
  · rcases h2 : v.verifyM2 ((frame.drop 5).take 32) with _ | M2 <;>
      constructor <;>
      · unfold process_srp_request
        rw [hphase, hv]
        simp [hlt, h2, hauth]

/-- Witness for C5 with the rejecting verifier. -/
theorem phase3_bad_proof_reply_witness :
    (process_srp_request mkVGood [0xD0] [0xD1]
        { s0 with verifier := some vBad } frame3).1 =
      .ok (some (xbee_output 0xAC [0x82])) ∧
    (process_srp_request mkVGood [0xD0] [0xD1]
        { s0 with verifier := some vBad } frame3).2 =
      { s0 with verifier := some vBad } :=
  phase3_bad_proof_reply mkVGood [0xD0] [0xD1]
    { s0 with verifier := some vBad } frame3 vBad (by decide) (by decide) rfl
    (Or.inl rfl)

/-- Claim C8: A handshake frame submitted out of order leaves the state
exactly as it was: a phase-3 proof arriving while no phase-1 frame has
ever been processed (so the `verifier` attribute does not exist) raises
`AttributeError` before any mutation, and a frame with any phase code
other than `0x01`/`0x03` returns `None` without mutation — in both cases
the session stays unauthenticated and no encryptor, decryptor or
session-key material is created. -/
theorem out_of_order_handshake_no_state
    (mkV : Option ByteL → Option ByteL → ByteL → Verifier)
    (tx rx : ByteL) (s : SecState) (frame : ByteL)
    (hlen : 5 ≤ frame.length) :
    (frame.getD 4 0 = 0x03 → s.verifier = none →
      process_srp_request mkV tx rx s frame = (.error .attributeError, s)) ∧
    (frame.getD 4 0 ≠ 0x01 → frame.getD 4 0 ≠ 0x03 →
      process_srp_request mkV tx rx s frame = (.ok none, s)) := by
  have hlt : ¬ frame.length < 5 := by omega
  constructor
  · intro hphase hv
    unfold process_srp_request
    rw [hphase, hv]
    simp [hlt]
  · intro h1 h3
    unfold process_srp_request
    rw [if_neg hlt, if_neg h1, if_neg h3]

/-- Witness for C8: a phase-3 frame against the pristine state, and a
phase-2-coded frame. -/
theorem out_of_order_handshake_no_state_witness :
    process_srp_request mkVGood [] [] s0 frame3 = (.error .attributeError, s0) ∧
    process_srp_request mkVGood [] [] s0 [0, 0, 0, 0x2C, 0x02] = (.ok none, s0) :=
  ⟨(out_of_order_handshake_no_state mkVGood [] [] s0 frame3
      (by decide)).1 (by decide) rfl,
   (out_of_order_handshake_no_state mkVGood [] [] s0 [0, 0, 0, 0x2C, 0x02]
      (by decide)).2 (by decide) (by decide)⟩

/-- Parsing a well-formed frame with `UnknownXBeePacket.create_packet` and
re-serialising it reproduces the frame. -/
theorem unknown_create_output_roundtrip (fd : ByteL) (hne : fd ≠ [])
    (hlen : fd.length < 65536) :
    unknown_create_output (xbee_output_fd fd) = .ok (xbee_output_fd fd) := by
  have hpos : 0 < fd.length := List.length_pos.mpr hne
  unfold unknown_create_output
  have hdrop : (xbee_output_fd fd).drop 3 = fd ++ [xbee_checksum fd] := rfl
  have hlen4 : (xbee_output_fd fd).length = fd.length + 4 := by
    simp [xbee_output_fd]
  have hg0 : (xbee_output_fd fd).getD 0 0 = 0x7E := rfl
  have hg1 : (xbee_output_fd fd).getD 1 0 = fd.length / 256 := rfl
  have hg2 : (xbee_output_fd fd).getD 2 0 = fd.length % 256 := rfl
  have hchk : (fd ++ [xbee_checksum fd]).sum % 256 = 0xFF := by
    simp only [List.sum_append, List.sum_cons, List.sum_nil, xbee_checksum]
    omega
  rw [hdrop, hlen4, hg0, hg1, hg2, hchk, List.dropLast_concat]
  rw [if_neg (by omega), if_neg (by decide), if_neg (by omega), if_neg (by decide)]

/-- Claim C7: Outbound routing of `BLEServiceNative.send_data`: a payload
longer than 3 bytes whose byte at offset 3 is `0xAC` (a handshake reply
frame — here any well-formed XBee frame with API id `0xAC`) is handed to
the GATT server unchanged, in the clear, with the cipher state untouched;
every other payload is first wrapped in a `UserDataRelayOutputPacket`
envelope and then encrypted by the session cipher before transmission. -/
theorem send_data_clear_vs_encrypted (aes : ByteL → ByteL → ByteL) (s : SecState) :
    (∀ fd : ByteL, fd ≠ [] → fd.getD 0 0 = 0xAC → fd.length < 65536 →
      send_data aes s (xbee_output_fd fd) = (.ok (xbee_output_fd fd), s)) ∧
    (∀ data : ByteL, ¬ (3 < data.length ∧ data.getD 3 0 = 0xAC) →
      ∀ c, s.encrypt = true → s.encryptor = some c →
      send_data aes s data =
        (.ok (cipher_encrypt aes c (relay_output_packet data)).1,
         { s with encryptor := some (cipher_encrypt aes c (relay_output_packet data)).2 })) := by
  constructor
  · intro fd hne hac hlen
    obtain ⟨a, t, rfl⟩ : ∃ a t, fd = a :: t := by
      cases fd with
      | nil => exact absurd rfl hne
      | cons a t => exact ⟨a, t, rfl⟩
    have hcond : 3 < (xbee_output_fd (a :: t)).length ∧
        (xbee_output_fd (a :: t)).getD 3 0 = 0xAC := by
      refine ⟨?_, ?_⟩
      · simp [xbee_output_fd]
      · simpa [xbee_output_fd] using hac
    unfold send_data
    rw [if_pos hcond, unknown_create_output_roundtrip (a :: t) hne hlen]
  · intro data hcond c henc hc
    unfold send_data
    rw [if_neg hcond]
    simp [encrypt_data, henc, hc]

/-- Witness for C7: a concrete handshake-reply frame goes out unchanged
and unencrypted; a concrete data payload goes out relay-wrapped and
encrypted. -/
theorem send_data_clear_vs_encrypted_witness :
    send_data aes0 s0 (xbee_output_fd [0xAC, 0x02]) =
      (.ok (xbee_output_fd [0xAC, 0x02]), s0) ∧
    send_data aes0 sAuth [0x11, 0x22] =
      (.ok (cipher_encrypt aes0 cAuth (relay_output_packet [0x11, 0x22])).1,
       { sAuth with
         encryptor := some (cipher_encrypt aes0 cAuth (relay_output_packet [0x11, 0x22])).2 }) :=
  ⟨(send_data_clear_vs_encrypted aes0 s0).1 [0xAC, 0x02] (by decide) (by decide)
      (by decide),
   (send_data_clear_vs_encrypted aes0 sAuth).2 [0x11, 0x22] (by decide) cAuth rfl
      rfl⟩

/-- Claim C6: Inbound dispatch of
`BLEServiceNative._execute_user_data_received_callbacks`: a frame whose
byte at offset 3 is `0x2C` is routed to the SRP processor and its reply
handed back through `send_data` — no decryption is attempted and no
data-received callback runs, whatever the cipher state; any other frame is
decrypted, and if byte 3 of the decrypted bytes is `0x08` it is dropped
silently (nothing sent, no callback); otherwise the relay envelope is
unwrapped and the inner payload is delivered to every registered callback
in registration order. -/
theorem inbound_frame_dispatch (aes : ByteL → ByteL → ByteL)
    (mkV : Option ByteL → Option ByteL → ByteL → Verifier)
    (tx rx : ByteL) (cbs : List Nat) (s : SecState) (data : ByteL) :
    (∀ resp out s1 s2, 3 < data.length → data.getD 3 0 = 0x2C →
      process_srp_request mkV tx rx s data = (.ok (some resp), s1) →
      send_data aes s1 resp = (.ok out, s2) →
      exec_data_received aes mkV tx rx cbs s data = (.ok ([out], []), s2)) ∧
    (∀ dec s1, ¬ (3 < data.length ∧ data.getD 3 0 = 0x2C) →
      decrypt_data aes s data = (.ok dec, s1) →
      3 < dec.length → dec.getD 3 0 = 0x08 →
      exec_data_received aes mkV tx rx cbs s data = (.ok ([], []), s1)) ∧
    (∀ dec s1 payload, ¬ (3 < data.length ∧ data.getD 3 0 = 0x2C) →
      decrypt_data aes s data = (.ok dec, s1) →
      ¬ (3 < dec.length ∧ dec.getD 3 0 = 0x08) →
      relay_create dec = .ok payload →
      exec_data_received aes mkV tx rx cbs s data =
        (.ok ([], cbs.map fun i => (i, payload)), s1)) := by
  refine ⟨?_, ?_, ?_⟩
  · intro resp out s1 s2 hl h2c hsrp hsend
    unfold exec_data_received
    rw [if_pos ⟨hl, h2c⟩]
    simp only [hsrp]
    simp only [hsend]
  · intro dec s1 hnot hdec hl h08
    unfold exec_data_received
    rw [if_neg hnot]
    simp only [hdec]
    rw [if_pos ⟨hl, h08⟩]
  · intro dec s1 payload hnot hdec hnot08 hrelay
    unfold exec_data_received
    rw [if_neg hnot]
    simp only [hdec]
    rw [if_neg hnot08]
    simp only [hrelay]

/-- Witness for C6: the three dispatch paths at concrete inputs — a
phase-3 handshake frame processed while unauthenticated, a decrypted AT
command frame, and a decrypted relay frame delivered to callbacks
`[5, 6]`. -/
theorem inbound_frame_dispatch_witness :
    exec_data_received aes0 mkVGood [0xD0] [0xD1] [5, 6]
        { s0 with verifier := some vGood } frame3 =
      (.ok ([xbee_output 0xAC ([0x04] ++ [0xAA, 0xBB] ++ [0xD0] ++ [0xD1])], []),
       { s0 with verifier := some vGood,
                 encryptor := some (new_cipher [1, 2] [0xD1]),
                 decryptor := some (new_cipher [1, 2] [0xD0]), encrypt := true }) ∧
    exec_data_received aes0 mkVGood [] [] [5, 6] sAuth atFrame =
      (.ok ([], []), sAuth1) ∧
    exec_data_received aes0 mkVGood [] [] [5, 6] sAuth relayFrame =
      (.ok ([], [(5, [0x42, 0x43]), (6, [0x42, 0x43])]), sAuth1) := by
  refine ⟨?_, ?_, ?_⟩
  · exact (inbound_frame_dispatch aes0 mkVGood [0xD0] [0xD1] [5, 6]
      { s0 with verifier := some vGood } frame3).1
      (xbee_output 0xAC ([0x04] ++ [0xAA, 0xBB] ++ [0xD0] ++ [0xD1]))
      (xbee_output 0xAC ([0x04] ++ [0xAA, 0xBB] ++ [0xD0] ++ [0xD1]))
      { s0 with verifier := some vGood,
                encryptor := some (new_cipher [1, 2] [0xD1]),
                decryptor := some (new_cipher [1, 2] [0xD0]), encrypt := true }
      { s0 with verifier := some vGood,
                encryptor := some (new_cipher [1, 2] [0xD1]),
                decryptor := some (new_cipher [1, 2] [0xD0]), encrypt := true }
      (by decide) (by decide) rfl rfl
  · exact (inbound_frame_dispatch aes0 mkVGood [] [] [5, 6] sAuth atFrame).2.1
      atFrame sAuth1 (by decide) rfl (by decide) (by decide)
  · exact (inbound_frame_dispatch aes0 mkVGood [] [] [5, 6] sAuth
      relayFrame).2.2 relayFrame sAuth1 [0x42, 0x43] (by decide) rfl (by decide)
      rfl

/-- `t` keeps the authenticated-session material of `s`: if the `encrypt`
flag was set it is still set, and a present encryptor/decryptor is still
present. -/
def auth_ge (s t : SecState) : Prop :=
  (s.encrypt = true → t.encrypt = true) ∧
  (s.encrypt = true → s.encryptor.isSome = true → t.encryptor.isSome = true) ∧
  (s.encrypt = true → s.decryptor.isSome = true → t.decryptor.isSome = true)

theorem auth_ge_refl (s : SecState) : auth_ge s s :=
  ⟨fun h => h, fun _ h => h, fun _ h => h⟩

theorem auth_ge_trans {s t u : SecState} (h1 : auth_ge s t) (h2 : auth_ge t u) :
    auth_ge s u :=
  ⟨fun h => h2.1 (h1.1 h),
   fun h he => h2.2.1 (h1.1 h) (h1.2.1 h he),
   fun h hd => h2.2.2 (h1.1 h) (h1.2.2 h hd)⟩

theorem auth_ge_encrypt_data (aes : ByteL → ByteL → ByteL) (s : SecState)
    (data : ByteL) : auth_ge s (encrypt_data aes s data).2 := by
  unfold encrypt_data
  by_cases h : s.encrypt
  · rcases he : s.encryptor with _ | c
    · simpa [h, he] using auth_ge_refl s
    · simp [h, he, auth_ge]
  · simpa [h] using auth_ge_refl s

theorem auth_ge_decrypt_data (aes : ByteL → ByteL → ByteL) (s : SecState)
    (data : ByteL) : auth_ge s (decrypt_data aes s data).2 := by
  unfold decrypt_data
  by_cases h : s.encrypt
  · rcases hd : s.decryptor with _ | c
    · simpa [h, hd] using auth_ge_refl s
    · simp [h, hd, auth_ge]
  · simpa [h] using auth_ge_refl s

theorem auth_ge_process (mkV : Option ByteL → Option ByteL → ByteL → Verifier)
    (tx rx : ByteL) (s : SecState) (frame : ByteL) :
    auth_ge s (process_srp_request mkV tx rx s frame).2 := by
  unfold process_srp_request
  by_cases h5 : frame.length < 5
  · simpa [h5] using auth_ge_refl s
  rw [if_neg h5]
  by_cases h1 : frame.getD 4 0 = 0x01
  · rw [if_pos h1]
    rcases hB : (mkV s.salt s.verification_key ((frame.drop 5).take 128)).B with _ | B
    · simp [hB, auth_ge]
    · simp only [hB]
      rcases hsalt : s.salt with _ | salt <;> simp [hsalt, auth_ge]
  rw [if_neg h1]
  by_cases h3 : frame.getD 4 0 = 0x03
  · rw [if_pos h3]
    rcases hv : s.verifier with _ | v
    · simpa using auth_ge_refl s
    simp only []
    rcases hM2 : v.verifyM2 ((frame.drop 5).take 32) with _ | M2
    · simpa using auth_ge_refl s
    simp only []
    by_cases hauth : v.authAfter ((frame.drop 5).take 32) = true
    · simp [hauth, auth_ge]
    · simpa [hauth] using auth_ge_refl s
  rw [if_neg h3]
  exact auth_ge_refl s

theorem auth_ge_send (aes : ByteL → ByteL → ByteL) (s : SecState)
    (data : ByteL) : auth_ge s (send_data aes s data).2 := by
  unfold send_data
  by_cases hc : 3 < data.length ∧ data.getD 3 0 = 0xAC
  · rw [if_pos hc]
    rcases unknown_create_output data with e | out
    · exact auth_ge_refl s
    · exact auth_ge_refl s
  · rw [if_neg hc]
    have h := auth_ge_encrypt_data aes s (relay_output_packet data)
    rcases he : encrypt_data aes s (relay_output_packet data) with ⟨r, s1⟩
    rw [he] at h
    rcases r with e | ct <;> simpa [he] using h

theorem auth_ge_exec (aes : ByteL → ByteL → ByteL)
    (mkV : Option ByteL → Option ByteL → ByteL → Verifier) (tx rx : ByteL)
    (cbs : List Nat) (s : SecState) (data : ByteL) :
    auth_ge s (exec_data_received aes mkV tx rx cbs s data).2 := by
  unfold exec_data_received
  by_cases hc : 3 < data.length ∧ data.getD 3 0 = 0x2C
  · rw [if_pos hc]
    have h1 := auth_ge_process mkV tx rx s data
    rcases hp : process_srp_request mkV tx rx s data with ⟨r, s1⟩
    rw [hp] at h1
    rcases r with e | o
    · simpa [hp] using h1
    rcases o with _ | resp
    · simpa [hp] using h1
    have h2 := auth_ge_send aes s1 resp
    rcases hs : send_data aes s1 resp with ⟨r2, s2⟩
    rw [hs] at h2
    rcases r2 with e | out <;>
      simpa [hp, hs] using auth_ge_trans h1 h2
  · rw [if_neg hc]
    have h1 := auth_ge_decrypt_data aes s data
    rcases hd : decrypt_data aes s data with ⟨r, s1⟩
    rw [hd] at h1
    rcases r with e | dec
    · simpa [hd] using h1
    simp only [hd]
    by_cases h08 : 3 < dec.length ∧ dec.getD 3 0 = 0x08
    · rw [if_pos h08]
      exact h1
    rw [if_neg h08]
    rcases relay_create dec with e | payload
    · exact h1
    · exact h1

/-- Claim C9: No public operation resets an authenticated session:
`generate_salted_verification_key` (and `set_password`, which delegates to
it) rewrites only the `salt` and `verification_key` fields, leaving the
verifier, the two ciphers and the `encrypt` flag untouched; and every
state-touching operation — `encrypt_data`, `decrypt_data`,
`process_srp_request`, `send_data`, the inbound dispatcher — keeps the
`encrypt` flag set once it is set and never clears a present
encryptor/decryptor, so authenticated cipher state persists across
password changes for the process lifetime. -/
theorem no_operation_resets_authenticated_session
    (aes : ByteL → ByteL → ByteL)
    (mkV : Option ByteL → Option ByteL → ByteL → Verifier)
    (kdf : String → String → ByteL × ByteL) (tx rx : ByteL) (cbs : List Nat)
    (s : SecState) (data : ByteL) (pw : String) :
    (generate_salted_verification_key kdf s pw).verifier = s.verifier ∧
    (generate_salted_verification_key kdf s pw).encryptor = s.encryptor ∧
    (generate_salted_verification_key kdf s pw).decryptor = s.decryptor ∧
    (generate_salted_verification_key kdf s pw).encrypt = s.encrypt ∧
    (generate_salted_verification_key kdf s pw).salt = some (kdf API_USERNAME pw).1 ∧
    (generate_salted_verification_key kdf s pw).verification_key =
      some (kdf API_USERNAME pw).2 ∧
    auth_ge s (set_password kdf s pw) ∧
    auth_ge s (encrypt_data aes s data).2 ∧
    auth_ge s (decrypt_data aes s data).2 ∧
    auth_ge s (process_srp_request mkV tx rx s data).2 ∧
    auth_ge s (send_data aes s data).2 ∧
    auth_ge s (exec_data_received aes mkV tx rx cbs s data).2 :=
  ⟨rfl, rfl, rfl, rfl, rfl, rfl,
   ⟨fun h => h, fun _ h => h, fun _ h => h⟩,
   auth_ge_encrypt_data aes s data,
   auth_ge_decrypt_data aes s data,
   auth_ge_process mkV tx rx s data,
   auth_ge_send aes s data,
   auth_ge_exec aes mkV tx rx cbs s data⟩

/-- Witness for C9 at the concrete authenticated state `sAuth`: a
password change via `set_password` leaves the ciphers and the `encrypt`
flag exactly as they were. -/
theorem no_operation_resets_authenticated_session_witness :
    (generate_salted_verification_key kdf0 sAuth "pw2").verifier = sAuth.verifier ∧
    (generate_salted_verification_key kdf0 sAuth "pw2").encryptor = sAuth.encryptor ∧
    (generate_salted_verification_key kdf0 sAuth "pw2").decryptor = sAuth.decryptor ∧
    (generate_salted_verification_key kdf0 sAuth "pw2").encrypt = sAuth.encrypt ∧
    (generate_salted_verification_key kdf0 sAuth "pw2").salt =
      some (kdf0 API_USERNAME "pw2").1 ∧
    (generate_salted_verification_key kdf0 sAuth "pw2").verification_key =
      some (kdf0 API_USERNAME "pw2").2 ∧
    auth_ge sAuth (set_password kdf0 sAuth "pw2") ∧
    auth_ge sAuth (encrypt_data aes0 sAuth [1, 2]).2 ∧
    auth_ge sAuth (decrypt_data aes0 sAuth [1, 2]).2 ∧
    auth_ge sAuth (process_srp_request mkVGood [0xD0] [0xD1] sAuth frame3).2 ∧
    auth_ge sAuth (send_data aes0 sAuth [1, 2]).2 ∧
    auth_ge sAuth (exec_data_received aes0 mkVGood [0xD0] [0xD1] [5] sAuth relayFrame).2 :=
  no_operation_resets_authenticated_session aes0 mkVGood kdf0 [0xD0] [0xD1] [5]
    sAuth [1, 2] "pw2"

/-- Claim C10: Constructing the native transport variant immediately derives
verifier credentials from the hard-coded default password `'1234'` under
the fixed username `'apiservice'`; until `set_password` replaces them,
a phase-1 handshake builds its verifier from exactly those default
credentials. -/
theorem native_init_default_password
    (kdf : String → String → ByteL × ByteL)
    (mkV : Option ByteL → Option ByteL → ByteL → Verifier) (s : SecState) :
    (native_init kdf s).salt = some (kdf "apiservice" "1234").1 ∧
    (native_init kdf s).verification_key = some (kdf "apiservice" "1234").2 ∧
    API_USERNAME = "apiservice" ∧
    (∀ tx rx frame, 5 ≤ frame.length → frame.getD 4 0 = 0x01 →
      (process_srp_request mkV tx rx (native_init kdf s) frame).2.verifier =
        some (mkV (some (kdf "apiservice" "1234").1)
                  (some (kdf "apiservice" "1234").2)
                  ((frame.drop 5).take 128))) := by
  refine ⟨rfl, rfl, rfl, ?_⟩
  intro tx rx frame hlen hphase
  have hlt : ¬ frame.length < 5 := by omega
  have hsalt : (native_init kdf s).salt = some (kdf "apiservice" "1234").1 := rfl
  have hvk : (native_init kdf s).verification_key = some (kdf "apiservice" "1234").2 := rfl
  unfold process_srp_request
  rw [if_neg hlt, if_pos hphase, hsalt, hvk]
  rcases hB : (mkV (some (kdf "apiservice" "1234").1)
      (some (kdf "apiservice" "1234").2) ((frame.drop 5).take 128)).B with _ | B <;>
    simp [hB]

/-- Witness for C10 at a concrete KDF, verifier factory and phase-1
frame. -/
theorem native_init_default_password_witness :
    (native_init kdf0 s0).salt = some (kdf0 "apiservice" "1234").1 ∧
    (native_init kdf0 s0).verification_key = some (kdf0 "apiservice" "1234").2 ∧
    API_USERNAME = "apiservice" ∧
    (process_srp_request mkVGood [] [] (native_init kdf0 s0) frame1Deg).2.verifier =
      some (mkVGood (some (kdf0 "apiservice" "1234").1)
                    (some (kdf0 "apiservice" "1234").2)
                    ((frame1Deg.drop 5).take 128)) := by
  obtain ⟨h1, h2, h3, h4⟩ := native_init_default_password kdf0 mkVGood s0
  set_option maxRecDepth 20000 in
  exact ⟨h1, h2, h3, h4 [] [] frame1Deg (by decide) (by decide)⟩

end CCBLE
